import Mathlib

/- Shallow embedding of `torchgeometry/homography_warper.py`.

   Tensors are modelled as row-major flat lists of rationals together with an
   explicit shape and a device tag.  Machine floats are modelled by `ℚ`; the
   spec's IEEE degeneracies (perspective division near zero) are outside every
   claim considered here, and `ℚ` division by zero yields `0`.  External
   primitives that are not part of the module's source (`torch.linspace`,
   `torch.nn.functional.grid_sample`, `torchgeometry.transform_points`) are
   modelled from the specification, as marked on their doc comments. -/

structure Tensor where
  shape : List Nat
  data : List ℚ
  device : String
deriving DecidableEq

/-- Row-major flat offset of a multi-index into a shape. -/
def flatIdx : List Nat → List Nat → Nat
  | _ :: ds, i :: is => i * ds.prod + flatIdx ds is
  | _, _ => 0

/-- Entry of a tensor at a multi-index (row-major layout, default `0`). -/
def Tensor.entry (t : Tensor) (idx : List Nat) : ℚ :=
  t.data.getD (flatIdx t.shape idx) 0

/-- Python-level failures surfaced by the module. -/
inductive PyError where
  | typeError (msg : String)
  | nameError (msg : String)
  | runtimeError (msg : String)
  | assertionError
  | indexError
  | zeroDivisionError
deriving DecidableEq

/-- Modelled from the spec: the sample values of the external `torch.linspace`
    primitive for a positive number of steps — `steps` linearly spaced samples
    from `lo` to `hi`, endpoints inclusive; a single sample collapses to the
    start value `lo`. -/
def linspaceList (lo hi : ℚ) (steps : Nat) : List ℚ :=
  if steps ≤ 1 then List.replicate steps lo
  else (List.range steps).map fun i : Nat => lo + (hi - lo) * (i : ℚ) / ((steps : ℚ) - 1)

/-- Modelled from the spec: the external `torch.linspace` primitive, which
    rejects a non-positive number of steps (this is the `InvalidArgument`
    surface the spec assigns to the grid generator, which itself performs no
    validation). -/
def linspaceT (lo hi : ℚ) (steps : Int) : Option (List ℚ) :=
  if steps ≤ 0 then none else some (linspaceList lo hi steps.toNat)

/-- First output of `torch.meshgrid([ys, xs])`: `ys` replicated along rows
    (flat row-major data of an `h × w` matrix). -/
def meshgridY (ys : List ℚ) (h w : Nat) : List ℚ :=
  (List.range (h * w)).map fun i => ys.getD (i / w) 0

/-- Second output of `torch.meshgrid([ys, xs])`: `xs` replicated along
    columns. -/
def meshgridX (xs : List ℚ) (h w : Nat) : List ℚ :=
  (List.range (h * w)).map fun i => xs.getD (i % w) 0

/-- `torch.stack` of the two meshgrid outputs followed by `view(1, 2, -1)`:
    the flat data is the `ys`-grid channel followed by the `xs`-grid
    channel. -/
def meshgridStacked (xs ys : List ℚ) (h w : Nat) : List ℚ :=
  meshgridY ys h w ++ meshgridX xs h w

/-- The `[:, (1, 0), :]` indexing: explicitly swaps the two channel slices of
    length `n` each. -/
def swapChannels (n : Nat) (d : List ℚ) : List ℚ :=
  d.drop n ++ d.take n

/-- Assembles the `(1, 2, H*W)` grid tensor from the sample vectors: stacked
    row-major meshgrid, then the explicit channel swap putting `x` first. -/
def assembleGrid (xs ys : List ℚ) (h w : Nat) : Tensor :=
  ⟨[1, 2, h * w], swapChannels (h * w) (meshgridStacked xs ys h w), "cpu"⟩

/-- `create_meshgrid` restricted to sizes on which the external linspace
    succeeds (its value on positive sizes). -/
def create_meshgridN (height width : Nat) (normalized : Bool) : Tensor :=
  let xs := if normalized then linspaceList (-1) 1 width
            else linspaceList 0 ((width : ℚ) - 1) width
  let ys := if normalized then linspaceList (-1) 1 height
            else linspaceList 0 ((height : ℚ) - 1) height
  assembleGrid xs ys height width

/-- `create_meshgrid` from the source: builds `xs`/`ys` with the external
    linspace, meshgrids them row-major (`ys` outer), stacks, flattens with
    `view(1, 2, -1)` and applies the explicit `(1, 0)` channel swap so that
    the `x` coordinate comes first. -/
def create_meshgrid (height width : Int) (normalized : Bool) : Option Tensor :=
  match (if normalized then linspaceT (-1) 1 width
         else linspaceT 0 ((width : ℚ) - 1) width),
        (if normalized then linspaceT (-1) 1 height
         else linspaceT 0 ((height : ℚ) - 1) height) with
  | some xs, some ys => some (assembleGrid xs ys height.toNat width.toNat)
  | _, _ => none

-- Basic lemmas about the list-level pieces.

theorem getD_map_range (f : Nat → ℚ) (m i : Nat) (h : i < m) :
    ((List.range m).map f).getD i 0 = f i := by
  rw [List.getD_eq_getElem?_getD]
  rw [List.getElem?_map]
  rw [List.getElem?_range h]
  rfl

theorem length_map_range (f : Nat → ℚ) (m : Nat) :
    ((List.range m).map f).length = m := by
  rw [List.length_map, List.length_range]

theorem meshgridY_length (ys : List ℚ) (h w : Nat) :
    (meshgridY ys h w).length = h * w := length_map_range _ _

theorem meshgridX_length (xs : List ℚ) (h w : Nat) :
    (meshgridX xs h w).length = h * w := length_map_range _ _

theorem swapChannels_stacked (xs ys : List ℚ) (h w : Nat) :
    swapChannels (h * w) (meshgridStacked xs ys h w)
      = meshgridX xs h w ++ meshgridY ys h w := by
  unfold swapChannels meshgridStacked
  rw [← meshgridY_length ys h w]
  rw [List.drop_left, List.take_left]

theorem linspaceList_getD (lo hi : ℚ) (steps i : Nat) (hi2 : i < steps) :
    (linspaceList lo hi steps).getD i 0
      = if steps = 1 then lo
        else lo + (hi - lo) * (i : ℚ) / ((steps : ℚ) - 1) := by
  unfold linspaceList
  by_cases h1 : steps ≤ 1
  · interval_cases steps
    · omega
    · simp only [if_pos (le_refl 1), if_pos rfl]
      interval_cases i
      rfl
  · rw [if_neg h1, if_neg (by omega)]
    exact getD_map_range _ _ _ hi2

-- Tensor operations used by the warper.

/-- `permute(0, 2, 1)` on a rank-3 tensor; the source only permutes the
    rank-3 grid `(1, 2, H*W)` into `(1, H*W, 2)`. -/
def permute021 (t : Tensor) : Tensor :=
  match t.shape with
  | [a, b2, c] =>
    ⟨[a, c, b2],
      (List.range (a * c * b2)).map fun idx =>
        let r := idx % (c * b2)
        t.data.getD (idx / (c * b2) * (b2 * c) + r % b2 * c + r / b2) 0,
      t.device⟩
  | _ => t

/-- The broadcast data of `expand`: the template's flat data replicated `b`
    times. -/
def expandData (t : Tensor) (b : Nat) : List ℚ :=
  (List.range (b * t.data.length)).map fun idx => t.data.getD (idx % t.data.length) 0

/-- `expand(batch, *shape[-2:])`: broadcasts the template grid across the
    batch dimension (the source only expands a rank-2 tensor or a rank-3
    tensor with a leading 1, the two shapes a warper grid can have). -/
def Tensor.expand2 (t : Tensor) (b : Nat) : Option Tensor :=
  match t.shape with
  | [1, m, k] => some ⟨[b, m, k], expandData t b, t.device⟩
  | [m, k] => some ⟨[b, m, k], expandData t b, t.device⟩
  | _ => none

/-- `view` with explicit target sizes: succeeds exactly when the element
    count matches the target shape's product. -/
def Tensor.viewAs (t : Tensor) (s : List Nat) : Option Tensor :=
  if t.data.length = s.prod then some ⟨s, t.data, t.device⟩ else none

/-- Modelled from the spec: `torchgeometry.transform_points` (defined in
    `conversions.py`, which is not part of this source tree).  Per §4.2 it
    takes transforms of shape `(b, 3, 3)` and points of shape `(b, n, 2)`,
    converts each point to homogeneous coordinates, applies the matrix, then
    divides by the last coordinate and drops it, returning shape `(b, n, 2)`.
    Any other shapes violate its contract and fail.  (`ℚ` division by zero
    yields `0` where IEEE would produce non-finite values; no claim here
    touches that case.)  `tpData` is the per-point transform with perspective
    division; `transform_points` wraps it with the shape contract. -/
def tpData (trans pts : Tensor) (b n : Nat) : List ℚ :=
  (List.range (b * n * 2)).map fun idx =>
    let pt := idx / 2
    let bi := pt / n
    let i := pt % n
    let x := pts.data.getD (bi * (n * 2) + i * 2) 0
    let y := pts.data.getD (bi * (n * 2) + i * 2 + 1) 0
    let hm : Nat → Nat → ℚ := fun r c2 => trans.data.getD (bi * 9 + r * 3 + c2) 0
    let s := hm 2 0 * x + hm 2 1 * y + hm 2 2
    if idx % 2 = 0 then (hm 0 0 * x + hm 0 1 * y + hm 0 2) / s
    else (hm 1 0 * x + hm 1 1 * y + hm 1 2) / s

def transform_points (trans pts : Tensor) : Option Tensor :=
  match trans.shape, pts.shape with
  | [b, t1, t2], [b2, n, d] =>
    if t1 = 3 ∧ t2 = 3 ∧ d = 2 ∧ b2 = b then
      some ⟨[b, n, 2], tpData trans pts b n, trans.device⟩
    else none
  | _, _ => none

-- Modelled from the spec: the external bilinear resampling primitive
-- `torch.nn.functional.grid_sample` (§6): reads the image at the grid's
-- normalized coordinates with bilinear interpolation, handling out-of-range
-- samples per the padding mode.

/-- Clamps an integer pixel index into `[0, n-1]` (the "border" policy). -/
def clampIdx (i : Int) (n : Nat) : Nat := (min (max i 0) ((n : Int) - 1)).toNat

/-- Reads one pixel of a channel plane (flat offset `base`) at integer
    coordinates, applying the padding policy for out-of-range reads. -/
def samplePixel (data : List ℚ) (hI wI : Nat) (base : Nat) (iy ix : Int)
    (pm : String) : ℚ :=
  if pm = "border" then
    data.getD (base + clampIdx iy hI * wI + clampIdx ix wI) 0
  else
    if 0 ≤ iy ∧ iy < (hI : Int) ∧ 0 ≤ ix ∧ ix < (wI : Int) then
      data.getD (base + iy.toNat * wI + ix.toNat) 0
    else 0

/-- Bilinear interpolation at normalized coordinates `(gx, gy)` of one
    channel plane. -/
def bilinearAt (data : List ℚ) (hI wI : Nat) (base : Nat) (gx gy : ℚ)
    (pm : String) : ℚ :=
  let ix : ℚ := (gx + 1) * ((wI : ℚ) - 1) / 2
  let iy : ℚ := (gy + 1) * ((hI : ℚ) - 1) / 2
  let x0 : Int := Int.floor ix
  let y0 : Int := Int.floor iy
  let wx : ℚ := ix - (x0 : ℚ)
  let wy : ℚ := iy - (y0 : ℚ)
  (1 - wy) * ((1 - wx) * samplePixel data hI wI base y0 x0 pm
              + wx * samplePixel data hI wI base y0 (x0 + 1) pm)
    + wy * ((1 - wx) * samplePixel data hI wI base (y0 + 1) x0 pm
            + wx * samplePixel data hI wI base (y0 + 1) (x0 + 1) pm)

/-- Modelled from the spec: `F.grid_sample image grid mode padding_mode`.
    Shapes `(b, c, hI, wI)` and `(b, hg, wg, 2)` produce `(b, c, hg, wg)`;
    only the bilinear mode is exercised by this module.  `gsData` is the
    per-output-pixel bilinear read; `grid_sample` wraps it with the shape
    contract. -/
def gsData (image grid : Tensor) (b c hI wI hg wg : Nat)
    (padding_mode : String) : List ℚ :=
  (List.range (b * c * hg * wg)).map fun idx =>
    let wi := idx % wg
    let hi2 := idx / wg % hg
    let ci := idx / (wg * hg) % c
    let bi := idx / (wg * hg * c)
    let gbase := bi * (hg * wg * 2) + hi2 * (wg * 2) + wi * 2
    bilinearAt image.data hI wI (bi * (c * hI * wI) + ci * (hI * wI))
      (grid.data.getD gbase 0) (grid.data.getD (gbase + 1) 0) padding_mode

def grid_sample (image grid : Tensor) (mode padding_mode : String) :
    Option Tensor :=
  if mode = "bilinear" then
    match image.shape, grid.shape with
    | [b, c, hI, wI], [b2, hg, wg, gd] =>
      if gd = 2 ∧ b2 = b then
        some ⟨[b, c, hg, wg], gsData image grid b c hI wI hg wg padding_mode,
          image.device⟩
      else none
    | _, _ => none
  else none

-- The homography warper.

/-- The warper's state: output height and width, and the template grid built
    once at construction. -/
structure HomographyWarper where
  height : Nat
  width : Nat
  grid : Tensor
deriving DecidableEq

/-- `HomographyWarper.__init__`: explicit-points mode stores the `3 × N`
    point set as-is with `height = 1`, `width = N`; full-image mode builds
    the normalized meshgrid and permutes it to `(1, H*W, 2)`. -/
def HomographyWarper.init (height width : Int) (points : Option Tensor) :
    Except PyError HomographyWarper :=
  match points with
  | some p =>
    if p.shape.length = 0 then .error .indexError
    else if p.shape.getD 0 0 ≠ 3 then .error .assertionError
    else if p.shape.length < 2 then .error .indexError
    else .ok ⟨1, p.shape.getD 1 0, p⟩
  | none =>
    match create_meshgrid height width true with
    | none => .error (.runtimeError ("linspace: number of steps must be positive"))
    | some g => .ok ⟨height.toNat, width.toNat, permute021 g⟩

/-- `HomographyWarper.warp_grid`: expands the template grid to the batch,
    transforms it by the homographies (after moving it to the homography's
    device) and reshapes to `(batch, height, width, 2)`. -/
def HomographyWarper.warp_grid (w : HomographyWarper) (H : Tensor) :
    Option Tensor :=
  let batch_size := H.shape.getD 0 0
  match w.grid.expand2 batch_size with
  | none => none
  | some grid =>
    match transform_points H { grid with device := H.device } with
    | none => none
    | some flow => flow.viewAs [batch_size, w.height, w.width, 2]

/-- `warp_grid` with the receiver threaded as explicit state: the Python
    method body assigns nothing to `self`, so the post-state is the
    receiver unchanged. -/
def HomographyWarper.warp_gridSt (w : HomographyWarper) (H : Tensor) :
    Option Tensor × HomographyWarper :=
  (w.warp_grid H, w)

/-- `HomographyWarper.crop_and_warp`: computes the warped grid, asserts the
    image is 4-D, converts the inclusive ROI bounds to normalized
    coordinates and derives the per-axis affine `(a, b)` — and then reaches
    the undefined name `Variable` on line 97 of the source, which is neither
    imported nor defined in the module.  The two explicit dimension checks
    stand in for Python's `ZeroDivisionError` on the `/ width` and
    `/ height` divisions (lines 86-90), which `ℚ` division cannot raise. -/
def HomographyWarper.crop_and_warp (w : HomographyWarper) (H image : Tensor)
    (roi : Int × Int × Int × Int) (padding_mode : String) :
    Except PyError Tensor :=
  match w.warp_grid H with
  | none => .error (.runtimeError ("shape mismatch in warp_grid"))
  | some _grid =>
    if image.shape.length ≠ 4 then .error .assertionError
    else
      let width := image.shape.getD 3 0
      let height := image.shape.getD 2 0
      if width = 0 then .error .zeroDivisionError
      else if height = 0 then .error .zeroDivisionError
      else
        -- lines 83-96: the normalized inclusive bounds and the affine
        -- midpoint/half-width, computed but consumed only by the undefined
        -- name on the next source line.
        let start_x : ℚ := 2 * (roi.2.2.1 : ℚ) / (width : ℚ) - 1
        let end_x : ℚ := 2 * ((roi.2.2.2 : ℚ) - 1) / (width : ℚ) - 1
        let start_y : ℚ := 2 * (roi.1 : ℚ) / (height : ℚ) - 1
        let end_y : ℚ := 2 * ((roi.2.1 : ℚ) - 1) / (height : ℚ) - 1
        let b_x : ℚ := (start_x + end_x) / 2
        let _a_x : ℚ := b_x - start_x
        let b_y : ℚ := (start_y + end_y) / 2
        let _a_y : ℚ := b_y - start_y
        .error (.nameError ("Variable"))

/-- The device-mismatch message raised by `forward` (source lines 131-133),
    carrying both device strings. -/
def devMismatchMsg (pd hd : String) : String :=
  "Patch and homography must be on the same device. Got patch.device: "
    ++ pd ++ " dst_H_src.device: " ++ hd ++ "."

/-- `s` occurs as a contiguous substring of `t`. -/
def occursIn (s t : String) : Prop :=
  ∃ a b : List Char, t.toList = a ++ s.toList ++ b

/-- `HomographyWarper.forward`: checks the device precondition, then samples
    the patch at the warped grid with the bilinear mode and the caller's
    padding mode. -/
def HomographyWarper.forward (w : HomographyWarper) (patch dst_homo_src : Tensor)
    (padding_mode : String) : Except PyError Tensor :=
  if ¬ (dst_homo_src.device = patch.device) then
    .error (.typeError (devMismatchMsg patch.device dst_homo_src.device))
  else
    match w.warp_grid dst_homo_src with
    | none => .error (.runtimeError ("shape mismatch in warp_grid"))
    | some grid =>
      match grid_sample patch grid ("bilinear") padding_mode with
      | none => .error (.runtimeError ("grid_sample: invalid shapes"))
      | some out => .ok out

/-- Functional entry point `homography_warp`: builds a warper for
    `dsize = (height, width)` (or the explicit points) and calls its
    `forward`. -/
def homography_warp (patch dst_H_src : Tensor) (dsize : Int × Int)
    (points : Option Tensor) (padding_mode : String) : Except PyError Tensor :=
  let height := dsize.1
  let width := dsize.2
  match HomographyWarper.init height width points with
  | .error e => .error e
  | .ok warper => warper.forward patch dst_H_src padding_mode

-- Index arithmetic helpers.

theorem idx_lt (h w y x : Nat) (hy : y < h) (hx : x < w) : y * w + x < h * w := by
  calc y * w + x < y * w + w := by omega
    _ = (y + 1) * w := by ring
    _ ≤ h * w := Nat.mul_le_mul_right w hy

theorem idx_mod (w y x : Nat) (hx : x < w) : (y * w + x) % w = x := by
  rw [Nat.mul_comm y w, Nat.mul_add_mod, Nat.mod_eq_of_lt hx]

theorem idx_div (w y x : Nat) (hw : 0 < w) (hx : x < w) : (y * w + x) / w = y := by
  rw [Nat.add_comm, Nat.mul_comm y w, Nat.add_mul_div_left _ _ hw,
    Nat.div_eq_of_lt hx, Nat.zero_add]

theorem flatIdx_grid (m c i : Nat) : flatIdx [1, 2, m] [0, c, i] = c * m + i := by
  simp [flatIdx]

-- The grid generator on positive sizes.

theorem create_meshgrid_pos (h w : Int) (hh : 1 ≤ h) (hw : 1 ≤ w) :
    create_meshgrid h w true = some (create_meshgridN h.toNat w.toNat true) := by
  simp [create_meshgrid, create_meshgridN, linspaceT,
    show ¬ w ≤ 0 by omega, show ¬ h ≤ 0 by omega]

theorem create_meshgridN_entry_x (h w y x : Nat) (hy : y < h) (hx : x < w) :
    (create_meshgridN h w true).entry [0, 0, y * w + x]
      = (linspaceList (-1) 1 w).getD x 0 := by
  show (swapChannels (h * w)
      (meshgridStacked (linspaceList (-1) 1 w) (linspaceList (-1) 1 h) h w)).getD
      (flatIdx [1, 2, h * w] [0, 0, y * w + x]) 0 = _
  rw [flatIdx_grid, Nat.zero_mul, Nat.zero_add, swapChannels_stacked]
  rw [List.getD_append _ _ _ _ (by rw [meshgridX_length]; exact idx_lt h w y x hy hx)]
  show ((List.range (h * w)).map fun i => (linspaceList (-1) 1 w).getD (i % w) 0).getD
      (y * w + x) 0 = _
  rw [getD_map_range _ _ _ (idx_lt h w y x hy hx), idx_mod w y x hx]

theorem create_meshgridN_entry_y (h w y x : Nat) (hy : y < h) (hx : x < w) :
    (create_meshgridN h w true).entry [0, 1, y * w + x]
      = (linspaceList (-1) 1 h).getD y 0 := by
  show (swapChannels (h * w)
      (meshgridStacked (linspaceList (-1) 1 w) (linspaceList (-1) 1 h) h w)).getD
      (flatIdx [1, 2, h * w] [0, 1, y * w + x]) 0 = _
  rw [flatIdx_grid, Nat.one_mul, swapChannels_stacked]
  rw [List.getD_append_right _ _ _ _ (by rw [meshgridX_length]; omega)]
  rw [meshgridX_length]
  have hsub : h * w + (y * w + x) - h * w = y * w + x := by omega
  rw [hsub]
  show ((List.range (h * w)).map fun i => (linspaceList (-1) 1 h).getD (i / w) 0).getD
      (y * w + x) 0 = _
  rw [getD_map_range _ _ _ (idx_lt h w y x hy hx),
    idx_div w y x (by omega) hx]

/-- The two channel values of the normalized grid at destination `(y, x)`. -/
theorem create_meshgridN_normalized_value (h w y x : Nat) (hy : y < h) (hx : x < w) :
    (create_meshgridN h w true).entry [0, 0, y * w + x]
        = (if w = 1 then (-1 : ℚ) else -1 + 2 * (x : ℚ) / ((w : ℚ) - 1)) ∧
    (create_meshgridN h w true).entry [0, 1, y * w + x]
        = (if h = 1 then (-1 : ℚ) else -1 + 2 * (y : ℚ) / ((h : ℚ) - 1)) := by
  constructor
  · rw [create_meshgridN_entry_x h w y x hy hx,
      linspaceList_getD (-1) 1 w x hx]
    by_cases hw1 : w = 1
    · simp [hw1]
    · rw [if_neg hw1, if_neg hw1]
      ring
  · rw [create_meshgridN_entry_y h w y x hy hx,
      linspaceList_getD (-1) 1 h y hy]
    by_cases hh1 : h = 1
    · simp [hh1]
    · rw [if_neg hh1, if_neg hh1]
      ring

/-- C1: for every H ≥ 1, W ≥ 1, the normalized grid of
    `create_meshgrid H W True` carries at destination position `(y, x)`
    (flat row-major index `y*W + x`) the pair `(x_coord, y_coord)` in
    `(x, y)` order — channel 0 holds the `x`-th of `W` samples linearly
    spaced from `-1` to `1` inclusive, channel 1 the `y`-th of `H` such
    samples, a single sample collapsing to `-1`; in particular `(1, 1)`
    yields the single coordinate `(-1, -1)` and `(2, 3)` yields the full
    cross product of x-values `-1, 0, 1` with y-values `-1, 1`. -/
theorem c1_create_meshgrid_normalized :
    (∀ h w y x : Nat, 1 ≤ h → 1 ≤ w → y < h → x < w →
      create_meshgrid (h : Int) (w : Int) true = some (create_meshgridN h w true) ∧
      (create_meshgridN h w true).shape = [1, 2, h * w] ∧
      (create_meshgridN h w true).entry [0, 0, y * w + x]
        = (if w = 1 then (-1 : ℚ) else -1 + 2 * (x : ℚ) / ((w : ℚ) - 1)) ∧
      (create_meshgridN h w true).entry [0, 1, y * w + x]
        = (if h = 1 then (-1 : ℚ) else -1 + 2 * (y : ℚ) / ((h : ℚ) - 1)))
    ∧ ((create_meshgridN 1 1 true).entry [0, 0, 0] = -1 ∧
       (create_meshgridN 1 1 true).entry [0, 1, 0] = -1)
    ∧ ((create_meshgridN 2 3 true).entry [0, 0, 0] = -1 ∧
       (create_meshgridN 2 3 true).entry [0, 0, 1] = 0 ∧
       (create_meshgridN 2 3 true).entry [0, 0, 2] = 1 ∧
       (create_meshgridN 2 3 true).entry [0, 0, 3] = -1 ∧
       (create_meshgridN 2 3 true).entry [0, 0, 4] = 0 ∧
       (create_meshgridN 2 3 true).entry [0, 0, 5] = 1 ∧
       (create_meshgridN 2 3 true).entry [0, 1, 0] = -1 ∧
       (create_meshgridN 2 3 true).entry [0, 1, 1] = -1 ∧
       (create_meshgridN 2 3 true).entry [0, 1, 2] = -1 ∧
       (create_meshgridN 2 3 true).entry [0, 1, 3] = 1 ∧
       (create_meshgridN 2 3 true).entry [0, 1, 4] = 1 ∧
       (create_meshgridN 2 3 true).entry [0, 1, 5] = 1) := by
  refine ⟨?_, ?_, ?_⟩
  · intro h w y x hh hw hy hx
    refine ⟨?_, rfl, create_meshgridN_normalized_value h w y x hy hx⟩
    have := create_meshgrid_pos (h : Int) (w : Int) (by omega) (by omega)
    simpa using this
  · have := create_meshgridN_normalized_value 1 1 0 0 (by omega) (by omega)
    norm_num at this
    exact this
  · have e00 := create_meshgridN_normalized_value 2 3 0 0 (by omega) (by omega)
    have e01 := create_meshgridN_normalized_value 2 3 0 1 (by omega) (by omega)
    have e02 := create_meshgridN_normalized_value 2 3 0 2 (by omega) (by omega)
    have e10 := create_meshgridN_normalized_value 2 3 1 0 (by omega) (by omega)
    have e11 := create_meshgridN_normalized_value 2 3 1 1 (by omega) (by omega)
    have e12 := create_meshgridN_normalized_value 2 3 1 2 (by omega) (by omega)
    norm_num at e00 e01 e02 e10 e11 e12
    exact ⟨e00.1, e01.1, e02.1, e10.1, e11.1, e12.1,
      e00.2, e01.2, e02.2, e10.2, e11.2, e12.2⟩

/-- Witness for C1 at `H = 2`, `W = 3`, position `(y, x) = (1, 2)`. -/
theorem c1_create_meshgrid_normalized_witness :
    (create_meshgridN 2 3 true).entry [0, 1, 1 * 3 + 2]
      = (if (2 : Nat) = 1 then (-1 : ℚ)
         else -1 + 2 * ((1 : Nat) : ℚ) / (((2 : Nat) : ℚ) - 1)) :=
  (c1_create_meshgrid_normalized.1 2 3 1 2 (by omega) (by omega) (by omega)
    (by omega)).2.2.2

/-- C8: calling the grid generator with height ≤ 0 or width ≤ 0 fails (in the
    external linspace primitive, modelled from the spec's InvalidArgument
    contract) and produces no grid. -/
theorem c8_create_meshgrid_invalid_size (h w : Int) (norm : Bool)
    (hbad : h ≤ 0 ∨ w ≤ 0) : create_meshgrid h w norm = none := by
  by_cases hw : w ≤ 0
  · cases norm <;> simp [create_meshgrid, linspaceT, hw]
  · have hh : h ≤ 0 := by omega
    cases norm <;> simp [create_meshgrid, linspaceT, hw, hh]

/-- Witness for C8 at `height = 0`, `width = 5`. -/
theorem c8_create_meshgrid_invalid_size_witness :
    create_meshgrid 0 5 true = none :=
  c8_create_meshgrid_invalid_size 0 5 true (Or.inl (by omega))

-- Shape lemmas for the warp pipeline.

theorem expandData_length (t : Tensor) (b : Nat) :
    (expandData t b).length = b * t.data.length := length_map_range _ _

theorem expand2_eq3 (t : Tensor) (b m k : Nat) (h : t.shape = [1, m, k]) :
    t.expand2 b = some ⟨[b, m, k], expandData t b, t.device⟩ := by
  simp [Tensor.expand2, h]

theorem expand2_eq2 (t : Tensor) (b m k : Nat) (h : t.shape = [m, k]) :
    t.expand2 b = some ⟨[b, m, k], expandData t b, t.device⟩ := by
  simp [Tensor.expand2, h]

theorem tpData_length (trans pts : Tensor) (b n : Nat) :
    (tpData trans pts b n).length = b * n * 2 := length_map_range _ _

theorem transform_points_eq (trans pts : Tensor) (b n : Nat)
    (ht : trans.shape = [b, 3, 3]) (hp : pts.shape = [b, n, 2]) :
    transform_points trans pts
      = some ⟨[b, n, 2], tpData trans pts b n, trans.device⟩ := by
  simp [transform_points, ht, hp]

theorem transform_points_bad_dim (trans pts : Tensor) (b b2 t1 t2 n d : Nat)
    (ht : trans.shape = [b, t1, t2]) (hp : pts.shape = [b2, n, d]) (hd : d ≠ 2) :
    transform_points trans pts = none := by
  simp [transform_points, ht, hp, hd]

theorem viewAs_some (t : Tensor) (s : List Nat) (h : t.data.length = s.prod) :
    t.viewAs s = some ⟨s, t.data, t.device⟩ := by
  unfold Tensor.viewAs
  rw [if_pos h]

theorem viewAs_none (t : Tensor) (s : List Nat) (h : ¬ t.data.length = s.prod) :
    t.viewAs s = none := by
  unfold Tensor.viewAs
  rw [if_neg h]

theorem fullGrid_shape (h w : Nat) :
    (permute021 (create_meshgridN h w true)).shape = [1, h * w, 2] := rfl

theorem fullGrid_len (h w : Nat) :
    (permute021 (create_meshgridN h w true)).data.length = 1 * (h * w) * 2 :=
  length_map_range _ _

theorem init_none_pos (h w : Int) (hh : 1 ≤ h) (hw : 1 ≤ w) :
    HomographyWarper.init h w none
      = .ok ⟨h.toNat, w.toNat, permute021 (create_meshgridN h.toNat w.toNat true)⟩ := by
  simp [HomographyWarper.init, create_meshgrid_pos h w hh hw]

/-- Full-image mode: `warp_grid` succeeds with the `(batch, height, width, 2)`
    shape whenever the template grid has the full-mode shape. -/
theorem warp_grid_full (wr : HomographyWarper) (H : Tensor) (b : Nat)
    (hg : wr.grid.shape = [1, wr.height * wr.width, 2])
    (hH : H.shape = [b, 3, 3]) :
    ∃ t : Tensor, wr.warp_grid H = some t ∧
      t.shape = [b, wr.height, wr.width, 2] := by
  have hb : H.shape.getD 0 0 = b := by rw [hH]; rfl
  have hE := expand2_eq3 wr.grid b _ _ hg
  have hF := transform_points_eq H
    (Tensor.mk [b, wr.height * wr.width, 2] (expandData wr.grid b) H.device)
    b (wr.height * wr.width) hH rfl
  have hV := viewAs_some
    (Tensor.mk [b, wr.height * wr.width, 2]
      (tpData H
        (Tensor.mk [b, wr.height * wr.width, 2] (expandData wr.grid b) H.device)
        b (wr.height * wr.width)) H.device)
    [b, wr.height, wr.width, 2]
    (by rw [tpData_length]; simp only [List.prod_cons, List.prod_nil]; ring)
  unfold HomographyWarper.warp_grid
  simp only [hb, hE, hF, hV]
  exact ⟨_, rfl, rfl⟩

theorem init_points (h w : Int) (p : Tensor) (n : Nat) (hp : p.shape = [3, n]) :
    HomographyWarper.init h w (some p) = .ok ⟨1, n, p⟩ := by
  simp [HomographyWarper.init, hp]

/-- Explicit-points mode: `warp_grid` always fails for a positive batch — the
    `3 × N` template is shape-incompatible with the point transform (for
    `N ≠ 2`) or with the final reshape (for `N = 2`). -/
theorem warp_grid_points_none (wr : HomographyWarper) (p H : Tensor) (b n : Nat)
    (hwr : wr = ⟨1, n, p⟩) (hp : p.shape = [3, n]) (hH : H.shape = [b, 3, 3])
    (hb1 : 1 ≤ b) : wr.warp_grid H = none := by
  subst hwr
  have hb2 : H.shape.getD 0 0 = b := by rw [hH]; rfl
  have hE := expand2_eq2 p b 3 n hp
  by_cases hn : n = 2
  · subst hn
    have hF := transform_points_eq H
      (Tensor.mk [b, 3, 2] (expandData p b) H.device) b 3 hH rfl
    have hV := viewAs_none
      (Tensor.mk [b, 3, 2]
        (tpData H (Tensor.mk [b, 3, 2] (expandData p b) H.device) b 3) H.device)
      [b, 1, 2, 2]
      (by rw [tpData_length]; simp only [List.prod_cons, List.prod_nil]; omega)
    unfold HomographyWarper.warp_grid
    simp only [hb2, hE, hF, hV]
  · have hF := transform_points_bad_dim H
      (Tensor.mk [b, 3, n] (expandData p b) H.device) b b 3 3 3 n hH rfl hn
    unfold HomographyWarper.warp_grid
    simp only [hb2, hE, hF]

-- Concrete example tensors.

/-- A `3 × 2` homogeneous point set (explicit-points mode template). -/
def ptsEx : Tensor := ⟨[3, 2], [0, 0, 0, 0, 0, 0], "cpu"⟩

/-- A batch of one `3 × 3` identity homography. -/
def homEx1 : Tensor := ⟨[1, 3, 3], [1, 0, 0, 0, 1, 0, 0, 0, 1], "cpu"⟩

/-- Counterexample for C2: an explicit-points warper (3×2 point set) on a
    batch-1 identity homography: `warp_grid` produces no grid at all, rather
    than one of shape `(1, height, width, 2)`. -/
theorem c2_warp_grid_points_counterexample :
    HomographyWarper.init 5 7 (some ptsEx) = .ok (HomographyWarper.mk 1 2 ptsEx)
    ∧ (HomographyWarper.mk 1 2 ptsEx).warp_grid homEx1 = none :=
  ⟨rfl, rfl⟩

/-- C2 (amended): for a warper in full-image mode, `warp_grid` on a
    homography batch of shape `(b, 3, 3)`, `b ≥ 1`, returns a grid of shape
    `(b, warper.height, warper.width, 2)`; for a warper in explicit-points
    mode (a `3 × N` point set), `warp_grid` never returns a grid for a
    positive batch — the template is shape-incompatible with the point
    transform (`N ≠ 2`) or with the final reshape (`N = 2`). -/
theorem c2_warp_grid_shape_amended :
    (∀ (h w : Int) (wr : HomographyWarper) (H : Tensor) (b : Nat),
        1 ≤ h → 1 ≤ w → HomographyWarper.init h w none = .ok wr →
        H.shape = [b, 3, 3] → 1 ≤ b →
        ∃ t : Tensor, wr.warp_grid H = some t ∧
          t.shape = [b, wr.height, wr.width, 2])
    ∧ (∀ (h w : Int) (p : Tensor) (wr : HomographyWarper) (H : Tensor) (b n : Nat),
        p.shape = [3, n] → HomographyWarper.init h w (some p) = .ok wr →
        H.shape = [b, 3, 3] → 1 ≤ b →
        wr.warp_grid H = none) := by
  constructor
  · intro h w wr H b hh hw hinit hH _hb1
    rw [init_none_pos h w hh hw] at hinit
    injection hinit with h2
    subst h2
    exact warp_grid_full _ H b (fullGrid_shape _ _) hH
  · intro h w p wr H b n hp hinit hH hb1
    rw [init_points h w p n hp] at hinit
    injection hinit with h2
    subst h2
    exact warp_grid_points_none _ p H b n rfl hp hH hb1

/-- Witness for C2 (amended): a 2×2 full-image warper on the batch-1
    identity yields a grid; the explicit-points warper yields none. -/
theorem c2_warp_grid_shape_amended_witness :
    ((HomographyWarper.mk 2 2
        (permute021 (create_meshgridN 2 2 true))).warp_grid homEx1).isSome = true
    ∧ (HomographyWarper.mk 1 2 ptsEx).warp_grid homEx1 = none := by
  constructor
  · obtain ⟨t, ht, _⟩ := c2_warp_grid_shape_amended.1 2 2
      (HomographyWarper.mk 2 2 (permute021 (create_meshgridN 2 2 true))) homEx1 1
      (by omega) (by omega) (init_none_pos 2 2 (by omega) (by omega)) rfl (by omega)
    rw [ht]
    rfl
  · exact c2_warp_grid_shape_amended.2 1 2 ptsEx (HomographyWarper.mk 1 2 ptsEx)
      homEx1 1 2 rfl (init_points 1 2 ptsEx 2 rfl) rfl (by omega)

/-- C9: `warp_grid` mutates no internal state — with the receiver threaded
    as explicit state, the post-state equals the receiver, all fields
    (template grid, height, width) unchanged, and the returned value is the
    pure function of the warper and the homography batch. -/
theorem c9_warp_grid_frame (wr : HomographyWarper) (H : Tensor) :
    (wr.warp_gridSt H).2 = wr
    ∧ (wr.warp_gridSt H).2.height = wr.height
    ∧ (wr.warp_gridSt H).2.width = wr.width
    ∧ (wr.warp_gridSt H).2.grid = wr.grid
    ∧ (wr.warp_gridSt H).1 = wr.warp_grid H :=
  ⟨rfl, rfl, rfl, rfl, rfl⟩

-- The device-mismatch message carries both device strings.

theorem devMismatchMsg_carries (pd hd : String) :
    occursIn pd (devMismatchMsg pd hd) ∧ occursIn hd (devMismatchMsg pd hd) := by
  constructor
  · refine ⟨("Patch and homography must be on the same device. Got patch.device: ").toList,
      (" dst_H_src.device: " ++ hd ++ ".").toList, ?_⟩
    simp [devMismatchMsg, String.toList, String.data_append]
  · refine ⟨("Patch and homography must be on the same device. Got patch.device: "
      ++ pd ++ " dst_H_src.device: ").toList, (".").toList, ?_⟩
    simp [devMismatchMsg, String.toList, String.data_append]

/-- C6: `forward` fails with the device-mismatch `TypeError` — whose message
    carries both compute contexts — exactly when patch and homography are on
    different devices, and never raises that error when the devices agree. -/
theorem c6_forward_device_mismatch (wr : HomographyWarper) (patch H : Tensor)
    (pm : String) :
    (patch.device ≠ H.device →
      wr.forward patch H pm
          = .error (.typeError (devMismatchMsg patch.device H.device))
        ∧ occursIn patch.device (devMismatchMsg patch.device H.device)
        ∧ occursIn H.device (devMismatchMsg patch.device H.device))
    ∧ (patch.device = H.device →
      ∀ m : String, wr.forward patch H pm ≠ .error (.typeError m)) := by
  constructor
  · intro hne
    refine ⟨?_, devMismatchMsg_carries patch.device H.device⟩
    unfold HomographyWarper.forward
    rw [if_pos (fun h => hne h.symm)]
  · intro heq m
    unfold HomographyWarper.forward
    rw [if_neg (by simp [heq])]
    cases hwg : wr.warp_grid H with
    | none => simp
    | some g =>
      cases hgs : grid_sample patch g ("bilinear") pm with
      | none => simp [hgs]
      | some out => simp [hgs]

-- More concrete example tensors.

/-- A `(1, 1, 2, 2)` image on the cpu device. -/
def patchEx : Tensor := ⟨[1, 1, 2, 2], [1, 2, 3, 4], "cpu"⟩

/-- A `(1, 1, 2, 3)` image on the cpu device. -/
def imgEx23 : Tensor := ⟨[1, 1, 2, 3], [1, 2, 3, 4, 5, 6], "cpu"⟩

/-- A batch of one identity homography on a different (cuda) device. -/
def homCuda : Tensor := ⟨[1, 3, 3], [1, 0, 0, 0, 1, 0, 0, 0, 1], "cuda"⟩

/-- Witness for C6: a cpu patch against a cuda homography batch raises the
    device-mismatch error carrying both device names. -/
theorem c6_forward_device_mismatch_witness :
    (HomographyWarper.mk 2 2 (permute021 (create_meshgridN 2 2 true))).forward
        patchEx homCuda ("zeros")
      = .error (.typeError (devMismatchMsg ("cpu") ("cuda"))) :=
  ((c6_forward_device_mismatch
      (HomographyWarper.mk 2 2 (permute021 (create_meshgridN 2 2 true)))
      patchEx homCuda ("zeros")).1 (by decide)).1

theorem grid_sample_eq (image grid : Tensor) (pm : String) (b c hI wI hg wg : Nat)
    (hi : image.shape = [b, c, hI, wI]) (hg2 : grid.shape = [b, hg, wg, 2]) :
    grid_sample image grid ("bilinear") pm
      = some ⟨[b, c, hg, wg], gsData image grid b c hI wI hg wg pm,
          image.device⟩ := by
  simp [grid_sample, hi, hg2]

/-- C3: on same-device inputs with a full-image warper, `forward` computes
    the warped grid via `warp_grid`, invokes the bilinear resampling
    primitive with mode `bilinear` and the caller's padding mode, and
    returns an image of shape `(N, C, warper.height, warper.width)` — the
    warper's output dimensions, not the input patch's. -/
theorem c3_forward_bilinear_shape (h w : Int) (wr : HomographyWarper)
    (patch H : Tensor) (pm : String) (b c hp wp : Nat)
    (hh : 1 ≤ h) (hw : 1 ≤ w)
    (hinit : HomographyWarper.init h w none = .ok wr)
    (hpatch : patch.shape = [b, c, hp, wp])
    (hH : H.shape = [b, 3, 3])
    (hdev : patch.device = H.device) :
    ∃ g out : Tensor,
      wr.warp_grid H = some g
      ∧ grid_sample patch g ("bilinear") pm = some out
      ∧ wr.forward patch H pm = .ok out
      ∧ out.shape = [b, c, wr.height, wr.width] := by
  rw [init_none_pos h w hh hw] at hinit
  injection hinit with h2
  subst h2
  obtain ⟨g, hwg, hgshape⟩ := warp_grid_full
    (HomographyWarper.mk h.toNat w.toNat
      (permute021 (create_meshgridN h.toNat w.toNat true)))
    H b (fullGrid_shape h.toNat w.toNat) hH
  have hgse := grid_sample_eq patch g pm b c hp wp h.toNat w.toNat hpatch hgshape
  refine ⟨g, _, hwg, hgse, ?_, rfl⟩
  unfold HomographyWarper.forward
  rw [if_neg (by simp [hdev])]
  simp only [hwg, hgse]

/-- Witness for C3: the 2×2 full-image warper on a 2×2 cpu patch and the
    batch-1 identity returns an image of shape `(1, 1, 2, 2)`. -/
theorem c3_forward_bilinear_shape_witness :
    ((HomographyWarper.mk 2 2 (permute021 (create_meshgridN 2 2 true))).forward
        patchEx homEx1 ("zeros")).toOption.map Tensor.shape
      = some [1, 1, 2, 2] := by
  obtain ⟨g, out, hwg, hgse, hfwd, hshape⟩ :=
    c3_forward_bilinear_shape 2 2
      (HomographyWarper.mk 2 2 (permute021 (create_meshgridN 2 2 true)))
      patchEx homEx1 ("zeros") 1 1 2 2 (by omega) (by omega)
      (init_none_pos 2 2 (by omega) (by omega)) rfl rfl rfl
  rw [hfwd]
  show some out.shape = some [1, 1, 2, 2]
  rw [hshape]

/-- C7: the functional entry point equals warper construction followed by
    `forward`, whenever the construction succeeds. -/
theorem c7_homography_warp_refines (patch H : Tensor) (height width : Int)
    (points : Option Tensor) (pm : String) (wr : HomographyWarper)
    (hinit : HomographyWarper.init height width points = .ok wr) :
    homography_warp patch H (height, width) points pm = wr.forward patch H pm := by
  unfold homography_warp
  simp only [hinit]

/-- Witness for C7 at `dsize = (2, 2)`, no explicit points. -/
theorem c7_homography_warp_refines_witness :
    homography_warp patchEx homEx1 (2, 2) none ("zeros")
      = (HomographyWarper.mk 2 2
          (permute021 (create_meshgridN 2 2 true))).forward patchEx homEx1 ("zeros") :=
  c7_homography_warp_refines patchEx homEx1 2 2 none ("zeros")
    (HomographyWarper.mk 2 2 (permute021 (create_meshgridN 2 2 true)))
    (init_none_pos 2 2 (by omega) (by omega))

/-- Counterexample for C10: invoked on an explicit-points warper, a valid
    homography batch and a 4-D image, `crop_and_warp` fails inside
    `warp_grid` with a shape error — not with the undefined-name error —
    so not every invocation fails with the undefined-name error. -/
theorem c10_crop_and_warp_counterexample :
    HomographyWarper.init 4 4 (some ptsEx) = .ok (HomographyWarper.mk 1 2 ptsEx)
    ∧ (HomographyWarper.mk 1 2 ptsEx).crop_and_warp homEx1 patchEx
        (0, 2, 0, 2) ("zeros")
      = .error (.runtimeError ("shape mismatch in warp_grid")) :=
  ⟨rfl, rfl⟩

/-- C10 (amended): no invocation of `crop_and_warp` ever produces output;
    whenever execution reaches line 97 — i.e. the warped grid was built, the
    image is 4-D and its spatial dimensions are nonzero — it fails with the
    undefined-name error on `Variable`, which is neither imported nor defined
    in the module; all other invocations fail even earlier (shape error in
    `warp_grid`, the 4-D assertion, or division by a zero dimension). -/
theorem c10_crop_and_warp_always_fails_amended
    (wr : HomographyWarper) (H image : Tensor) (roi : Int × Int × Int × Int)
    (pm : String) :
    (∀ t : Tensor, wr.crop_and_warp H image roi pm ≠ .ok t)
    ∧ ((wr.warp_grid H).isSome = true → image.shape.length = 4 →
        image.shape.getD 3 0 ≠ 0 → image.shape.getD 2 0 ≠ 0 →
        wr.crop_and_warp H image roi pm = .error (.nameError ("Variable"))) := by
  constructor
  · intro t
    unfold HomographyWarper.crop_and_warp
    cases hwg : wr.warp_grid H with
    | none => simp
    | some g =>
      simp only []
      split_ifs <;> simp
  · intro hsome h4 hw0 hh0
    obtain ⟨g, hg⟩ := Option.isSome_iff_exists.mp hsome
    unfold HomographyWarper.crop_and_warp
    simp only [hg]
    rw [if_neg (by simp [h4])]
    rw [if_neg hw0, if_neg hh0]

/-- Witness for C10 (amended): the 2×2 full-image warper with the identity
    batch and a 2×2 image fails exactly with the undefined-name error. -/
theorem c10_crop_and_warp_always_fails_amended_witness :
    (HomographyWarper.mk 2 2 (permute021 (create_meshgridN 2 2 true))).crop_and_warp
        homEx1 patchEx (0, 1, 1, 2) ("border")
      = .error (.nameError ("Variable")) :=
  (c10_crop_and_warp_always_fails_amended
      (HomographyWarper.mk 2 2 (permute021 (create_meshgridN 2 2 true)))
      homEx1 patchEx (0, 1, 1, 2) ("border")).2 rfl rfl (by decide) (by decide)

/-- C4: `crop_and_warp` never reaches the ROI remap and resampling the claim
    describes — with a full-image warper, the identity homography batch, a
    `(1, 1, 2, 3)` image and roi `(0, 1, 0, 2)`, it fails with the
    undefined-name error on `Variable` before any resampling (the code slip
    behind the spec's intended `grid * a + b` remap algorithm). -/
theorem c4_crop_and_warp_name_error :
    (HomographyWarper.mk 2 3 (permute021 (create_meshgridN 2 3 true))).crop_and_warp
        homEx1 imgEx23 (0, 1, 0, 2) ("border")
      = .error (.nameError ("Variable")) := rfl

/-- C5: with the identity homography batch and the full-image roi,
    `crop_and_warp` raises the undefined-name error while `forward` on the
    same image succeeds — the two are not equivalent as the claim states. -/
theorem c5_crop_and_warp_not_equiv_forward :
    (HomographyWarper.mk 2 2 (permute021 (create_meshgridN 2 2 true))).crop_and_warp
        homEx1 patchEx (0, 2, 0, 2) ("zeros")
      = .error (.nameError ("Variable"))
    ∧ ((HomographyWarper.mk 2 2 (permute021 (create_meshgridN 2 2 true))).forward
        patchEx homEx1 ("zeros")).toOption.isSome = true
    ∧ (HomographyWarper.mk 2 2 (permute021 (create_meshgridN 2 2 true))).crop_and_warp
        homEx1 patchEx (0, 2, 0, 2) ("zeros")
      ≠ (HomographyWarper.mk 2 2 (permute021 (create_meshgridN 2 2 true))).forward
        patchEx homEx1 ("zeros") :=
  ⟨rfl, rfl, fun hcontra =>
    absurd (congrArg (fun e : Except PyError Tensor => e.toOption.isSome) hcontra)
      (by decide)⟩
